import Mathlib

/-!
# Verification of the libjuice ICE agent engine (src/agent.c)

Shallow embedding of the agent state machine of `src/agent.c`:
entry scheduling (`agent_arm_transmission`, `agent_bookkeeping`),
STUN Binding processing (`agent_process_stun_binding`,
`agent_verify_stun_binding`), TURN Allocate processing
(`agent_process_turn_allocate`) and the ordered candidate-pair array
(`agent_update_ordered_pairs`).

Machine integers are modelled as `Nat`/`Int`; the single relevant
truncating cast (the `(int)` cast inside the pacing loop of
`agent_arm_transmission`) is modelled explicitly by `toInt32`.
Calls into the OS socket layer are modelled by boolean oracles
(`sendOk`), and the CSPRNG `juice_random` by explicit `fresh*`
parameters. Timestamps (`timestamp_t`, milliseconds) are `Nat`.
-/

namespace Juice

/-! ## Constants (agent.h / stun.h values, as listed in the design spec) -/

def STUN_PACING_TIME : Nat := 50
def STUN_KEEPALIVE_PERIOD : Nat := 15000
def MIN_STUN_RETRANSMISSION_TIMEOUT : Nat := 500
def MAX_STUN_RETRANSMISSION_COUNT : Int := 7
def ICE_FAIL_TIMEOUT : Nat := 30000
def TURN_LIFETIME : Nat := 600000
def TURN_REFRESH_PERIOD : Nat := TURN_LIFETIME / 2

/-! ## Data model -/

inductive StunClass where
  | request
  | indication
  | respSuccess
  | respError
deriving DecidableEq, Repr

/-- `STUN_IS_RESPONSE(class)` -/
def StunClass.isResponse : StunClass → Bool
  | .respSuccess => true
  | .respError => true
  | _ => false

inductive StunMethod where
  | binding
  | allocate
  | refresh
  | createPermission
  | channelBind
  | sendM
  | dataM
deriving DecidableEq, Repr

inductive AgentMode where
  | unknown
  | controlling
  | controlled
deriving DecidableEq, Repr

inductive JuiceState where
  | disconnected
  | gathering
  | connecting
  | connected
  | completed
  | failed
deriving DecidableEq, Repr

inductive StunEntryType where
  | check
  | server
  | relay
deriving DecidableEq, Repr

inductive StunEntryState where
  | idle
  | pending
  | cancelled
  | failed
  | succeeded
  | succeededKeepalive
deriving DecidableEq, Repr

inductive PairState where
  | frozen
  | pending
  | succeeded
  | failed
deriving DecidableEq, Repr

/-- The fields of `ice_candidate_pair_t` the agent engine reads and writes.
Local/remote candidate pointers are not modelled. -/
structure CandidatePair where
  state : PairState
  nominated : Bool
  nominationRequested : Bool
  priority : Nat
deriving DecidableEq, Repr

/-- The fields of `stun_message_t` read by the agent engine. The
`ICE-CONTROLLING` / `ICE-CONTROLLED` attributes are 64-bit values stored
as plain integer fields that are `0` when the attribute is absent,
exactly as the C struct (zero-initialized by `memset`) represents them.
`mappedLen` / `relayedLen` model `msg->mapped.len` / `msg->relayed.len`
(`0` meaning the address is absent). `realm` and `nonce` model
`msg->credentials.realm` / `msg->credentials.nonce`. -/
structure StunMessage where
  msgClass : StunClass
  msgMethod : StunMethod
  transactionId : Nat
  errorCode : Nat
  iceControlling : Nat
  iceControlled : Nat
  useCandidate : Bool
  priority : Nat
  hasIntegrity : Bool
  username : String
  realm : String
  nonce : String
  mappedLen : Nat
  relayedLen : Nat
deriving DecidableEq, Repr

/-- The fields of `agent_stun_entry_t` used by the modelled operations.
`hasPair` models `entry->pair != NULL` (the pair fields are only
meaningful when it is true), `hasTurn` models `entry->turn != NULL`, and
`turnRealm`/`turnNonce` model `entry->turn->credentials.realm/.nonce`. -/
structure StunEntry where
  ty : StunEntryType
  state : StunEntryState
  transactionId : Nat
  nextTransmission : Nat
  retransmissions : Int
  retransmissionTimeout : Nat
  armed : Bool
  hasPair : Bool
  pair : CandidatePair
  hasTurn : Bool
  turnRealm : String
  turnNonce : String
deriving DecidableEq, Repr

/-! ## agent_arm_transmission (agent.c:2144-2179)

The pacing loop scans all entries; on finding another entry whose
armed `next_transmission` is nonzero and within `STUN_PACING_TIME` of
the candidate slot (the comparison casts the 64-bit timestamp
difference to `int`, then takes `abs`), it moves the candidate slot
just after that entry and restarts the scan. We model the other
entries by the list of their `next_transmission` values, and give the
loop explicit fuel (the C loop terminates because the slot strictly
increases while staying below the largest occupied slot plus
`STUN_PACING_TIME`; the theorems exhibit sufficient fuel). -/

/-- Two's-complement truncation of a 64-bit difference to C `int`
(32 bits), as performed by `(int)timediff` in the pacing loop. -/
def toInt32 (d : Int) : Int := (d + 2 ^ 31) % 2 ^ 32 - 2 ^ 31

/-- C `abs` on `int` (the `INT_MIN` corner, undefined in C, is modelled
as negation). -/
def cAbs (x : Int) : Int := if x < 0 then -x else x

/-- The conflict test of the pacing loop:
`other_transmission && abs((int)timediff) < STUN_PACING_TIME`. -/
def slotConflict (t o : Nat) : Prop :=
  o ≠ 0 ∧ cAbs (toInt32 ((t : Int) - (o : Int))) < STUN_PACING_TIME

instance (t o : Nat) : Decidable (slotConflict t o) := by
  unfold slotConflict; infer_instance

/-- The `while` loop at agent.c:2166-2178: repeatedly find the first
other entry conflicting with the candidate slot `t` and move `t` just
after it. -/
def armFindSlot (others : List Nat) : Nat → Nat → Nat
  | 0, t => t
  | fuel + 1, t =>
    match others.find? (fun o => decide (slotConflict t o)) with
    | none => t
    | some o => armFindSlot others fuel (o + STUN_PACING_TIME)

/-- The context `agent_arm_transmission` reads from the agent:
the current time, the `next_transmission` values of the *other*
entries, and the selected-pair information used to limit
retransmissions. `fuel` bounds the pacing loop (see `armFindSlot`). -/
structure ArmCtx where
  now : Nat
  fuel : Nat
  othersNext : List Nat
  selectedPairExists : Bool
  selectedPairNominated : Bool
  selectedPairIsEntrysPair : Bool
  mode : AgentMode
deriving Repr

/-- `agent_arm_transmission(agent, entry, delay)` (agent.c:2144-2179). -/
def agent_arm_transmission (ctx : ArmCtx) (e : StunEntry) (delay : Nat) : StunEntry :=
  let e1 := { e with armed := true }
  let e2 :=
    if e1.state ≠ StunEntryState.succeededKeepalive then
      { e1 with state := StunEntryState.pending }
    else e1
  let e3 := { e2 with nextTransmission := ctx.now + delay }
  let e4 :=
    if e3.state = StunEntryState.pending then
      let limit := ctx.selectedPairExists &&
        (ctx.selectedPairNominated ||
          (!ctx.selectedPairIsEntrysPair && decide (ctx.mode = AgentMode.controlling)))
      { e3 with
        retransmissions := if limit then 1 else MAX_STUN_RETRANSMISSION_COUNT,
        retransmissionTimeout := MIN_STUN_RETRANSMISSION_TIMEOUT }
    else e3
  { e4 with nextTransmission := armFindSlot ctx.othersNext ctx.fuel e4.nextTransmission }

/-! ## agent_update_ordered_pairs (agent.c:2213-2224)

Array insertion sort over pointers into the candidate-pair vector,
ordered by descending 64-bit priority. We model pointer identity by
tagging each pair with its index in the vector. -/

/-- A pointer into the candidate-pair vector: the index identifies the
element, `priority` is the pair's 64-bit priority. -/
structure PairRef where
  idx : Nat
  priority : Nat
deriving DecidableEq, Repr

/-- The inner shift loop of `agent_update_ordered_pairs`: insert `x`
into the (already sorted) prefix, after every element with priority
`≥ x.priority` (elements with strictly smaller priority are shifted
right). -/
def orderedInsertDesc (x : PairRef) : List PairRef → List PairRef
  | [] => [x]
  | h :: t =>
    if h.priority < x.priority then x :: h :: t
    else h :: orderedInsertDesc x t

/-- `agent_update_ordered_pairs(agent)` (agent.c:2213-2224): rebuild
the `ordered_pairs` array by inserting each element of the
candidate-pair vector, in index order, into the sorted prefix. -/
def agent_update_ordered_pairs (pairs : List PairRef) : List PairRef :=
  pairs.foldl (fun acc p => orderedInsertDesc p acc) []

/-! ## agent_verify_stun_binding (agent.c:1046-1109)

Username handling: the C code copies `msg->credentials.username`,
splits it at the first `':'` (`strchr`), and compares the halves with
the local/remote ufrags. `stun_check_integrity` (stun.c, external to
the agent) is modelled by the boolean oracle `integrityOk`. -/

/-- Split a username at the first colon (`strchr(username, ':')`
followed by `*separator = 0`), `none` when there is no colon. -/
def splitUsername (s : String) : Option (String × String) :=
  let p := s.posOf ':'
  if p = s.endPos then none
  else some (s.extract 0 p, s.extract (s.next p) s.endPos)

/-- `agent_verify_stun_binding(agent, buf, size, msg)`
(agent.c:1046-1109). Returns `0` on success and `-1` on failure, like
the C function. `localUfrag`, `remoteUfrag`, `localPwd`, `remotePwd`
are `agent->local/remote.ice_ufrag/ice_pwd`. -/
def agent_verify_stun_binding (localUfrag remoteUfrag localPwd remotePwd : String)
    (integrityOk : Bool) (msg : StunMessage) : Int :=
  if msg.msgMethod ≠ StunMethod.binding then -1
  else if msg.msgClass = StunClass.indication ∨ msg.msgClass = StunClass.respError then 0
  else if ¬ msg.hasIntegrity then -1
  else
    let usernameOk : Bool :=
      if msg.msgClass = StunClass.request then
        match splitUsername msg.username with
        | none => false
        | some (firstUfrag, secondUfrag) =>
          let (localPart, remotePart) :=
            if msg.msgClass.isResponse then (secondUfrag, firstUfrag)
            else (firstUfrag, secondUfrag)
          decide (localPart = localUfrag ∧ (remoteUfrag = "" ∨ remotePart = remoteUfrag))
      else true
    if ¬ usernameOk then -1
    else
      let password := if msg.msgClass = StunClass.request then localPwd else remotePwd
      if password = "" then -1
      else if ¬ integrityOk then -1
      else 0

/-! ## agent_process_stun_binding (agent.c:1238-1420) -/

/-- A STUN Binding message handed to `agent_send_stun_binding`:
its class, its `ERROR-CODE` value (0 for non-error messages) and the
transaction id placed in its header. -/
structure SentMsg where
  msgClass : StunClass
  errorCode : Nat
  transactionId : Nat
deriving DecidableEq, Repr

/-- The agent fields read and written by
`agent_process_stun_binding`. -/
structure AgentCtx where
  mode : AgentMode
  tiebreaker : Nat
  selectedPairExists : Bool
  selectedPairNominated : Bool
deriving DecidableEq, Repr

/-- Result of `agent_process_stun_binding`: the updated agent fields
and entry, the Binding messages handed to `agent_send_stun_binding`,
whether `agent_update_candidate_pairs`,
`agent_add_local_reflexive_candidate` and
`agent_update_gathering_done` were invoked, and the return value. -/
structure BindingOutcome where
  mode : AgentMode
  tiebreaker : Nat
  entry : StunEntry
  sent : List SentMsg
  pairsUpdated : Bool
  addedLocalReflexive : Bool
  updatedGatheringDone : Bool
  ret : Int
deriving DecidableEq, Repr

/-- `agent_process_stun_binding(agent, msg, entry, src, relayed)`
(agent.c:1238-1420). `fresh` is the value `juice_random` would store
into `agent->ice_tiebreaker`; `respSendOk` is the result of sending
the Binding success response at agent.c:1315 (all other sends have
their return values ignored by the C code); `relayed` models
`relayed != NULL`. -/
def agent_process_stun_binding (arm : ArmCtx) (ctx : AgentCtx) (fresh : Nat)
    (respSendOk : Bool) (relayed : Bool) (msg : StunMessage) (e : StunEntry) :
    BindingOutcome :=
  match msg.msgClass with
  | StunClass.request =>
    if e.ty ≠ StunEntryType.check then
      ⟨ctx.mode, ctx.tiebreaker, e, [], false, false, false, -1⟩
    else if msg.iceControlling = msg.iceControlled then
      ⟨ctx.mode, ctx.tiebreaker, e, [⟨StunClass.respError, 400, msg.transactionId⟩],
        false, false, false, -1⟩
    else if ctx.mode = AgentMode.controlling ∧ msg.iceControlling ≠ 0 then
      -- Role conflict (both controlling), agent.c:1260-1272
      if ctx.tiebreaker ≥ msg.iceControlling then
        ⟨ctx.mode, ctx.tiebreaker, e, [⟨StunClass.respError, 487, msg.transactionId⟩],
          false, false, false, 0⟩
      else
        ⟨AgentMode.controlled, ctx.tiebreaker, e, [], true, false, false, 0⟩
    else if msg.iceControlled ≠ 0 ∧ ctx.mode = AgentMode.controlled then
      -- Role conflict (both controlled), agent.c:1280-1292.
      -- NOTE: the C code compares the tiebreaker against
      -- msg->ice_controlling here, not msg->ice_controlled.
      if ctx.tiebreaker ≥ msg.iceControlling then
        ⟨AgentMode.controlling, ctx.tiebreaker, e, [], true, false, false, 0⟩
      else
        ⟨ctx.mode, ctx.tiebreaker, e, [⟨StunClass.respError, 487, msg.transactionId⟩],
          false, false, false, 0⟩
    else if msg.useCandidate ∧ msg.iceControlling = 0 then
      ⟨ctx.mode, ctx.tiebreaker, e, [⟨StunClass.respError, 400, msg.transactionId⟩],
        false, false, false, -1⟩
    else
      let e1 :=
        if msg.useCandidate then
          if e.pair.state = PairState.succeeded then
            { e with pair := { e.pair with nominated := true } }
          else if ¬ e.pair.nominationRequested then
            agent_arm_transmission arm
              { e with
                pair := { e.pair with nominationRequested := true,
                                      state := PairState.pending },
                state := StunEntryState.pending }
              STUN_PACING_TIME
          else e
        else e
      ⟨ctx.mode, ctx.tiebreaker, e1,
        [⟨StunClass.respSuccess, 0, msg.transactionId⟩],
        false, false, false, if respSendOk then 0 else -1⟩
  | StunClass.respSuccess =>
    let e1 :=
      if e.state ≠ StunEntryState.succeededKeepalive then
        { e with state := StunEntryState.succeeded, nextTransmission := 0 }
      else e
    let e2 :=
      if ¬ ctx.selectedPairExists ∨ ¬ ctx.selectedPairNominated then
        agent_arm_transmission arm
          { e1 with state := StunEntryState.succeededKeepalive } STUN_KEEPALIVE_PERIOD
      else e1
    let addedReflexive := msg.mappedLen ≠ 0 ∧ ¬ relayed
    if e2.ty = StunEntryType.check then
      let e3 :=
        if e2.pair.state ≠ PairState.succeeded then
          { e2 with pair := { e2.pair with state := PairState.succeeded } }
        else e2
      let e4 :=
        if e3.pair.nominationRequested then
          { e3 with pair := { e3.pair with nominated := true } }
        else e3
      ⟨ctx.mode, ctx.tiebreaker, e4, [], false, decide addedReflexive, false, 0⟩
    else
      ⟨ctx.mode, ctx.tiebreaker, e2, [], false, decide addedReflexive, true, 0⟩
  | StunClass.respError =>
    if e.ty = StunEntryType.check ∧ msg.errorCode = 487 then
      -- Role conflict 487 response, agent.c:1380-1401
      let (mode1, updated) :=
        if (ctx.mode = AgentMode.controlling ∧ msg.iceControlling ≠ 0) ∨
            (ctx.mode = AgentMode.controlled ∧ msg.iceControlled ≠ 0) then
          (if msg.iceControlling ≠ 0 then AgentMode.controlled
            else AgentMode.controlling, true)
        else (ctx.mode, false)
      let e1 := agent_arm_transmission arm { e with state := StunEntryState.pending } 0
      ⟨mode1, fresh, e1, [], updated, false, false, 0⟩
    else
      ⟨ctx.mode, ctx.tiebreaker, { e with state := StunEntryState.failed },
        [], false, false, true, 0⟩
  | StunClass.indication =>
    ⟨ctx.mode, ctx.tiebreaker, e, [], false, false, false, 0⟩

/-! ## agent_direct_send (agent.c:419-445)

Only the logging decision is relevant to the spec: a failed `sendto`
is logged unless `errno` is `EAGAIN`/`EWOULDBLOCK`. -/

/-- Whether `agent_direct_send` logs a send-failure warning
(agent.c:440-441): `ret < 0 && sockerrno != SEAGAIN && sockerrno !=
SEWOULDBLOCK`. -/
def agent_direct_send_warns (ret : Int) (errnoIsEagain : Bool) : Bool :=
  decide (ret < 0) && !errnoIsEagain

/-! ## The per-entry part of agent_bookkeeping (agent.c:819-902)

One iteration of the entry loop: transmit or retransmit a pending
entry, emit keepalives, and clear `next_transmission` on
non-transmitting entries. The result of `agent_send_stun_binding` /
`agent_send_turn_allocate_request` is modelled by the oracle `sendOk`
(`false` covers both a transient `sendto` failure such as
EAGAIN/EWOULDBLOCK and any other send error: all of them make the C
send helpers return `-1`). `freshTx` is the random transaction id a
Binding indication keepalive would carry. -/

/-- Result of one entry iteration of the bookkeeping loop: the updated
entry and the transaction ids of the messages actually transmitted
during that iteration. -/
structure StepOutcome where
  entry : StunEntry
  sentTx : List Nat
deriving DecidableEq, Repr

/-- One iteration of the entry loop of `agent_bookkeeping`
(agent.c:819-902), for the entry `e`, at time `arm.now`. -/
def agent_bookkeeping_entry_step (arm : ArmCtx) (sendOk : Bool) (freshTx : Nat)
    (e : StunEntry) : StepOutcome :=
  if e.state = StunEntryState.pending then
    if arm.now < e.nextTransmission then ⟨e, []⟩
    else if 0 ≤ e.retransmissions ∧ sendOk then
      -- Request (re)transmitted: both the Binding request and the TURN
      -- Allocate request carry entry->transaction_id
      ⟨{ e with
          retransmissions := e.retransmissions - 1,
          nextTransmission := arm.now + e.retransmissionTimeout,
          retransmissionTimeout := e.retransmissionTimeout * 2 },
        [e.transactionId]⟩
    else
      -- Failure sending or end of retransmissions (agent.c:848-864)
      ⟨{ e with
          state := StunEntryState.failed,
          nextTransmission := 0,
          pair := if e.hasPair then { e.pair with state := PairState.failed } else e.pair },
        []⟩
  else if e.state = StunEntryState.succeededKeepalive then
    let mustArm := ! e.armed
    let e1 := { e with armed := true }
    let e2 :=
      if mustArm then agent_arm_transmission arm e1 STUN_KEEPALIVE_PERIOD else e1
    if arm.now < e2.nextTransmission then ⟨e2, []⟩
    else if ¬ sendOk then ⟨e2, []⟩
    else
      -- Keepalive: TURN Refresh carries entry->transaction_id, the
      -- Binding indication carries a fresh random transaction id
      let tx := if e2.ty = StunEntryType.relay then e2.transactionId else freshTx
      ⟨agent_arm_transmission arm e2 STUN_KEEPALIVE_PERIOD, [tx]⟩
  else
    ⟨{ e with nextTransmission := 0 }, []⟩

/-! ## The pair scan and coarse-state part of agent_bookkeeping
(agent.c:904-1035) -/

/-- Result of the `ordered_pairs` scan (agent.c:907-930): the number
of still-pending pairs, whether a nominated pair and a selected pair
were found, and the pair list after the scan (the scan freezes
lower-priority pending pairs on the controlling side). -/
structure ScanOut where
  pendingCount : Nat
  nominatedFound : Bool
  selectedFound : Bool
  pairs : List CandidatePair
deriving DecidableEq, Repr

/-- The scan over `ordered_pairs` (agent.c:910-930), in array order. -/
def scanPairs (mode : AgentMode) (nomFound selFound : Bool) (pending : Nat) :
    List CandidatePair → ScanOut
  | [] => ⟨pending, nomFound, selFound, []⟩
  | p :: rest =>
    if p.nominated then
      let out := scanPairs mode true (if ¬ nomFound then true else selFound) pending rest
      { out with pairs := p :: out.pairs }
    else if p.state = PairState.succeeded then
      let out := scanPairs mode nomFound true pending rest
      { out with pairs := p :: out.pairs }
    else if p.state = PairState.pending then
      if mode = AgentMode.controlling ∧ selFound then
        let out := scanPairs mode nomFound selFound pending rest
        { out with pairs := { p with state := PairState.frozen } :: out.pairs }
      else
        let out := scanPairs mode nomFound selFound (pending + 1) rest
        { out with pairs := p :: out.pairs }
    else
      let out := scanPairs mode nomFound selFound pending rest
      { out with pairs := p :: out.pairs }

/-- `agent_change_state(agent, state)` (agent.c:803-810): the new
state, and the state passed to the state-changed callback when it
fires. -/
def agent_change_state (st target : JuiceState) : JuiceState × List JuiceState :=
  if target ≠ st then (target, [target]) else (st, [])

/-- The coarse-state portion of `agent_bookkeeping` after the entry
loop (agent.c:904-1035): scan the ordered pairs, then update the
agent state. Returns the new state, the list of states reported
through the state-changed callback (in order), the new
`fail_timestamp` and the pair list after the scan. Entry bookkeeping
(selected-entry publication, keepalive promotion, nomination-request
rearming) acts on fields outside this fragment's state and is covered
by the entry-step model. -/
def agent_bookkeeping_state_update (mode : AgentMode) (st0 : JuiceState)
    (failTs now : Nat) (remoteFinished : Bool) (pairs : List CandidatePair) :
    JuiceState × List JuiceState × Nat × List CandidatePair :=
  if pairs = [] then (st0, [], failTs, pairs)
  else
    let scan := scanPairs mode false false 0 pairs
    if scan.selectedFound then
      if scan.nominatedFound then
        -- Completed: never transition directly from connecting to
        -- completed (agent.c:974-982)
        let s1 := if st0 = JuiceState.connecting then
            agent_change_state st0 JuiceState.connected
          else (st0, [])
        let s2 := if mode = AgentMode.controlled ∨ scan.pendingCount = 0 then
            agent_change_state s1.1 JuiceState.completed
          else (s1.1, [])
        (s2.1, s1.2 ++ s2.2, failTs, scan.pairs)
      else
        -- Connected (agent.c:1007-1024)
        let s1 := agent_change_state st0 JuiceState.connected
        (s1.1, s1.2, failTs, scan.pairs)
    else if scan.pendingCount = 0 then
      -- Failed (agent.c:1026-1035)
      let ft := if failTs = 0 then
          now + (if remoteFinished then 0 else ICE_FAIL_TIMEOUT)
        else failTs
      if ft ≠ 0 ∧ ft ≤ now then
        let s1 := agent_change_state st0 JuiceState.failed
        (s1.1, s1.2, ft, scan.pairs)
      else (st0, [], ft, scan.pairs)
    else (st0, [], failTs, scan.pairs)

/-! ## agent_process_turn_allocate (agent.c:1518-1641) -/

/-- Modelled from the spec: `stun_process_credentials` lives in stun.c,
which is not part of the sources under verification. Per the design
spec (§4.4.4, step 2: the 401 response carries `REALM` and `NONCE`;
"Adopt them into the entry's credentials"), it copies the realm and
nonce of the message credentials into the entry credentials. -/
def stun_process_credentials (msgRealm msgNonce : String) (e : StunEntry) : StunEntry :=
  { e with turnRealm := msgRealm, turnNonce := msgNonce }

/-- Result of `agent_process_turn_allocate`: the updated entry,
whether `agent_update_gathering_done` and
`agent_add_local_reflexive_candidate` / `agent_add_local_relayed_candidate`
were invoked, and the return value. -/
structure AllocateOutcome where
  entry : StunEntry
  updatedGatheringDone : Bool
  addedReflexive : Bool
  addedRelayed : Bool
  ret : Int
deriving DecidableEq, Repr

/-- `agent_process_turn_allocate(agent, msg, entry)`
(agent.c:1518-1641). `freshTx` is the random transaction id
`juice_random` would write into the entry on a success response;
`selectedPairExists`/`selectedPairNominated` are read from `arm`. -/
def agent_process_turn_allocate (arm : ArmCtx) (freshTx : Nat)
    (msg : StunMessage) (e : StunEntry) : AllocateOutcome :=
  if msg.msgMethod ≠ StunMethod.allocate ∧ msg.msgMethod ≠ StunMethod.refresh then
    ⟨e, false, false, false, -1⟩
  else if e.ty ≠ StunEntryType.relay then
    ⟨e, false, false, false, -1⟩
  else if ¬ e.hasTurn then
    ⟨e, false, false, false, -1⟩
  else
    match msg.msgClass with
    | StunClass.respSuccess =>
      if msg.msgMethod = StunMethod.refresh then
        let e1 :=
          if e.state = StunEntryState.succeededKeepalive then
            agent_arm_transmission arm { e with transactionId := freshTx }
              TURN_REFRESH_PERIOD
          else e
        ⟨e1, false, false, false, 0⟩
      else
        let e1 :=
          if e.state ≠ StunEntryState.succeededKeepalive then
            { e with state := StunEntryState.succeeded, nextTransmission := 0 }
          else e
        let e2 :=
          if ¬ arm.selectedPairExists ∨ ¬ arm.selectedPairNominated then
            agent_arm_transmission arm
              { e1 with state := StunEntryState.succeededKeepalive,
                        transactionId := freshTx }
              TURN_REFRESH_PERIOD
          else e1
        let addedReflexive := msg.mappedLen ≠ 0
        if msg.relayedLen = 0 then
          ⟨{ e2 with state := StunEntryState.failed }, false, decide addedReflexive,
            false, -1⟩
        else
          ⟨e2, true, decide addedReflexive, true, 0⟩
    | StunClass.respError =>
      if msg.errorCode = 401 then
        if e.turnRealm ≠ "" then
          ⟨{ e with state := StunEntryState.failed }, false, false, false, -1⟩
        else if msg.realm = "" ∨ msg.nonce = "" then
          ⟨{ e with state := StunEntryState.failed }, false, false, false, -1⟩
        else
          ⟨agent_arm_transmission arm (stun_process_credentials msg.realm msg.nonce e) 0,
            false, false, false, 0⟩
      else if msg.errorCode = 438 then
        if msg.realm = "" ∨ msg.nonce = "" then
          ⟨{ e with state := StunEntryState.failed }, false, false, false, -1⟩
        else
          ⟨agent_arm_transmission arm (stun_process_credentials msg.realm msg.nonce e) 0,
            false, false, false, 0⟩
      else
        ⟨{ e with state := StunEntryState.failed }, true, false, false, 0⟩
    | _ => ⟨e, false, false, false, -1⟩

/-! ## Theorems -/

/-! ### Ordered candidate pairs (C8) -/

/-- Sorted by non-increasing 64-bit pair priority. -/
def SortedByDescPriority (l : List PairRef) : Prop :=
  List.Pairwise (fun a b => b.priority ≤ a.priority) l

theorem orderedInsertDesc_perm (x : PairRef) (l : List PairRef) :
    (orderedInsertDesc x l).Perm (x :: l) := by
  induction l with
  | nil => simp [orderedInsertDesc]
  | cons h t ih =>
    by_cases hp : h.priority < x.priority
    · simp [orderedInsertDesc, hp]
    · simp only [orderedInsertDesc, hp, if_false]
      exact (ih.cons h).trans (List.Perm.swap x h t)

theorem orderedInsertDesc_mem (x y : PairRef) (l : List PairRef) :
    y ∈ orderedInsertDesc x l → y = x ∨ y ∈ l := by
  intro hy
  have := (orderedInsertDesc_perm x l).mem_iff.mp hy
  simpa using this

theorem orderedInsertDesc_sorted (x : PairRef) (l : List PairRef)
    (hl : SortedByDescPriority l) : SortedByDescPriority (orderedInsertDesc x l) := by
  induction l with
  | nil => simp [orderedInsertDesc, SortedByDescPriority]
  | cons h t ih =>
    rcases hl with _ | ⟨hh, ht⟩
    by_cases hp : h.priority < x.priority
    · simp only [orderedInsertDesc, hp, if_true]
      refine List.Pairwise.cons ?_ (List.Pairwise.cons hh ht)
      intro y hy
      rcases List.mem_cons.mp hy with rfl | hy
      · exact le_of_lt hp
      · exact le_trans (hh y hy) (le_of_lt hp)
    · simp only [orderedInsertDesc, hp, if_false]
      refine List.Pairwise.cons ?_ (ih ht)
      intro y hy
      rcases orderedInsertDesc_mem x y t hy with rfl | hy
      · exact le_of_not_lt hp
      · exact hh y hy

theorem update_ordered_pairs_aux (l acc : List PairRef)
    (hacc : SortedByDescPriority acc) :
    SortedByDescPriority (l.foldl (fun acc p => orderedInsertDesc p acc) acc) ∧
      (l.foldl (fun acc p => orderedInsertDesc p acc) acc).Perm (acc ++ l) := by
  induction l generalizing acc with
  | nil => simpa using hacc
  | cons p l ih =>
    have h := ih (orderedInsertDesc p acc) (orderedInsertDesc_sorted p acc hacc)
    refine ⟨h.1, ?_⟩
    have h1 : (orderedInsertDesc p acc ++ l).Perm (acc ++ p :: l) := by
      refine ((orderedInsertDesc_perm p acc).append_right l).trans ?_
      exact List.perm_middle.symm
    simp only [List.foldl_cons]
    exact h.2.trans h1

/-- C8: after every call to `agent_update_ordered_pairs`, the ordered
array is a permutation of the (pointers to the) candidate-pair vector
and is sorted by non-increasing 64-bit pair priority. -/
theorem ordered_pairs_perm_and_sorted (pairs : List PairRef) :
    (agent_update_ordered_pairs pairs).Perm pairs ∧
      SortedByDescPriority (agent_update_ordered_pairs pairs) := by
  have h := update_ordered_pairs_aux pairs [] (by simp [SortedByDescPriority])
  exact ⟨by simpa using h.2, h.1⟩

/-! ### Transmission pacing (C2) -/

theorem cAbs_toInt32_eq (d : Int) (h1 : -(2 ^ 31) < d) (h2 : d < 2 ^ 31) :
    cAbs (toInt32 d) = (d.natAbs : Int) := by
  have hmod : (d + 2 ^ 31) % 2 ^ 32 = d + 2 ^ 31 :=
    Int.emod_eq_of_lt (by omega) (by omega)
  unfold cAbs toInt32
  rw [hmod]
  split <;> omega

/-- The pacing loop of `agent_arm_transmission`: when every occupied
slot is at most `B`, the timestamps stay below `2^31` (so the `(int)`
cast in the conflict test is exact) and the fuel covers the remaining
distance, the loop ends on a slot no earlier than the requested one
and conflicting with no other entry. -/
theorem armFindSlot_spec (others : List Nat) (B : Nat)
    (hB : ∀ o ∈ others, o ≤ B) (hB31 : B + STUN_PACING_TIME < 2 ^ 31) :
    ∀ fuel t, t < 2 ^ 31 → B + STUN_PACING_TIME + 1 ≤ fuel + t →
      t ≤ armFindSlot others fuel t ∧
      armFindSlot others fuel t < 2 ^ 31 ∧
      ∀ o ∈ others, ¬ slotConflict (armFindSlot others fuel t) o := by
  intro fuel
  induction fuel with
  | zero =>
    intro t ht hge
    refine ⟨le_refl t, ht, ?_⟩
    intro o ho hc
    simp only [armFindSlot] at hc
    rcases hc with ⟨hne, habs⟩
    have hoB := hB o ho
    rw [cAbs_toInt32_eq ((t : Int) - o) (by push_cast; omega) (by push_cast; omega)] at habs
    simp only [STUN_PACING_TIME] at habs hge
    omega
  | succ fuel ih =>
    intro t ht hge
    simp only [armFindSlot]
    cases hfind : others.find? (fun o => decide (slotConflict t o)) with
    | none =>
      refine ⟨le_refl t, ht, ?_⟩
      intro o ho hc
      have := List.find?_eq_none.mp hfind o ho
      simp only [decide_eq_true_eq] at this
      exact this hc
    | some o =>
      have ho : o ∈ others := List.mem_of_find?_eq_some hfind
      have hc : slotConflict t o := by
        have := List.find?_some hfind
        simpa using this
      rcases hc with ⟨hne, habs⟩
      have hoB := hB o ho
      rw [cAbs_toInt32_eq ((t : Int) - o) (by push_cast; omega) (by push_cast; omega)] at habs
      have htlt : t < o + STUN_PACING_TIME := by
        simp only [STUN_PACING_TIME] at habs ⊢
        omega
      obtain ⟨h1, h2, h3⟩ := ih (o + STUN_PACING_TIME) (by omega) (by omega)
      exact ⟨le_trans (le_of_lt htlt) h1, h2, h3⟩

theorem arm_transmission_nextTransmission (ctx : ArmCtx) (e : StunEntry) (delay : Nat) :
    (agent_arm_transmission ctx e delay).nextTransmission =
      armFindSlot ctx.othersNext ctx.fuel (ctx.now + delay) := by
  unfold agent_arm_transmission
  dsimp only
  split <;> dsimp only <;> split <;> rfl

theorem arm_transmission_state (ctx : ArmCtx) (e : StunEntry) (delay : Nat) :
    (agent_arm_transmission ctx e delay).state =
      (if e.state = StunEntryState.succeededKeepalive then
        StunEntryState.succeededKeepalive else StunEntryState.pending) := by
  unfold agent_arm_transmission
  dsimp only
  by_cases h : e.state = StunEntryState.succeededKeepalive <;>
    simp only [h, ite_true, ite_false, ne_eq, not_true_eq_false, not_false_eq_true,
      if_true, if_false] <;> split <;> rfl

/-- C2: after `agent_arm_transmission(agent, entry, delay)` returns,
the entry's `next_transmission` differs from every other entry's
nonzero `next_transmission` by at least `STUN_PACING_TIME` (50 ms),
and is never earlier than the arming time plus `delay` (the slot is
only pushed forward). Hypotheses: every occupied slot (and the
requested one) fits in the 31-bit range (timestamps in the same agent
are millisecond values close to each other, so the `(int)` cast of the
64-bit difference in the C conflict test is exact) and the loop fuel
covers the occupied range. -/
theorem arm_transmission_pacing (ctx : ArmCtx) (e : StunEntry) (delay B : Nat)
    (hB : ∀ o ∈ ctx.othersNext, o ≤ B)
    (hB31 : B + STUN_PACING_TIME < 2 ^ 31)
    (ht : ctx.now + delay < 2 ^ 31)
    (hfuel : B + STUN_PACING_TIME + 1 ≤ ctx.fuel) :
    ctx.now + delay ≤ (agent_arm_transmission ctx e delay).nextTransmission ∧
    ∀ o ∈ ctx.othersNext, o ≠ 0 →
      (STUN_PACING_TIME : Int) ≤
        |((agent_arm_transmission ctx e delay).nextTransmission : Int) - (o : Int)| := by
  rw [arm_transmission_nextTransmission]
  obtain ⟨h1, h2, h3⟩ :=
    armFindSlot_spec ctx.othersNext B hB hB31 ctx.fuel (ctx.now + delay) ht (by omega)
  refine ⟨h1, ?_⟩
  intro o ho hne
  have hnc := h3 o ho
  have hoB := hB o ho
  unfold slotConflict at hnc
  rw [cAbs_toInt32_eq _ (by push_cast; omega) (by push_cast; omega)] at hnc
  rw [Int.abs_eq_natAbs]
  simp only [STUN_PACING_TIME] at hnc ⊢
  omega

/-- Witness for C2 at a concrete input: entries occupying slots 20 and
60, a new entry armed for time 10; the armed slot lands at 110. -/
theorem arm_transmission_pacing_witness :
    (∀ o ∈ [20, 0, 60], o ≤ 60) ∧ 60 + STUN_PACING_TIME < 2 ^ 31 ∧
      10 + 0 < 2 ^ 31 ∧ 60 + STUN_PACING_TIME + 1 ≤ 111 ∧
      (10 + 0 ≤ (agent_arm_transmission ⟨10, 111, [20, 0, 60], false, false, false,
          AgentMode.unknown⟩
          ⟨StunEntryType.check, StunEntryState.idle, 1, 0, 0, 0, false, false,
            ⟨PairState.frozen, false, false, 0⟩, false, "", ""⟩ 0).nextTransmission ∧
        ∀ o ∈ [20, 0, 60], o ≠ 0 →
          (STUN_PACING_TIME : Int) ≤
            |((agent_arm_transmission ⟨10, 111, [20, 0, 60], false, false, false,
                AgentMode.unknown⟩
                ⟨StunEntryType.check, StunEntryState.idle, 1, 0, 0, 0, false, false,
                  ⟨PairState.frozen, false, false, 0⟩, false, "", ""⟩ 0).nextTransmission :
                Int) - (o : Int)|) := by
  refine ⟨by decide, by norm_num [STUN_PACING_TIME], by norm_num,
    by norm_num [STUN_PACING_TIME], ?_⟩
  have h := arm_transmission_pacing
    ⟨10, 111, [20, 0, 60], false, false, false, AgentMode.unknown⟩
    ⟨StunEntryType.check, StunEntryState.idle, 1, 0, 0, 0, false, false,
      ⟨PairState.frozen, false, false, 0⟩, false, "", ""⟩
    0 60 (by decide) (by norm_num [STUN_PACING_TIME])
    (by norm_num) (by norm_num [STUN_PACING_TIME])
  simpa using h

/-! ### Role conflict with both agents controlled (C1) -/

/-- C1 (failing input for the claim): a controlled agent with
tiebreaker 5 receives a Binding request carrying only `ICE-CONTROLLED`
with value 10. The claim (and agent.c's own RFC 8445 quotation at
lines 1273-1279) demands that, since 5 < 10, the agent send a 487
error response and retain the controlled role; the code instead
compares the tiebreaker against `msg->ice_controlling` (which is 0
when only `ICE-CONTROLLED` is present), so `5 >= 0` holds and the
agent switches to the controlling role, recomputes the pair
priorities and sends nothing. -/
theorem both_controlled_conflict_failing_input :
    (agent_process_stun_binding
        ⟨0, 1, [], false, false, false, AgentMode.controlled⟩
        ⟨AgentMode.controlled, 5, false, false⟩ 99 true false
        ⟨StunClass.request, StunMethod.binding, 7, 0, 0, 10, false, 0, true,
          "a:b", "", "", 0, 0⟩
        ⟨StunEntryType.check, StunEntryState.succeeded, 7, 0, 0, 0, false, true,
          ⟨PairState.succeeded, false, false, 0⟩, false, "", ""⟩).mode =
        AgentMode.controlling ∧
      (agent_process_stun_binding
        ⟨0, 1, [], false, false, false, AgentMode.controlled⟩
        ⟨AgentMode.controlled, 5, false, false⟩ 99 true false
        ⟨StunClass.request, StunMethod.binding, 7, 0, 0, 10, false, 0, true,
          "a:b", "", "", 0, 0⟩
        ⟨StunEntryType.check, StunEntryState.succeeded, 7, 0, 0, 0, false, true,
          ⟨PairState.succeeded, false, false, 0⟩, false, "", ""⟩).sent = [] ∧
      (agent_process_stun_binding
        ⟨0, 1, [], false, false, false, AgentMode.controlled⟩
        ⟨AgentMode.controlled, 5, false, false⟩ 99 true false
        ⟨StunClass.request, StunMethod.binding, 7, 0, 0, 10, false, 0, true,
          "a:b", "", "", 0, 0⟩
        ⟨StunEntryType.check, StunEntryState.succeeded, 7, 0, 0, 0, false, true,
          ⟨PairState.succeeded, false, false, 0⟩, false, "", ""⟩).pairsUpdated =
        true := by
  decide

/-! ### Rejection of requests with both or neither role attribute (C5) -/

/-- C5 (counterexample): a Binding request carrying *both* role
attributes with *different* values (`ICE-CONTROLLING = 1`,
`ICE-CONTROLLED = 2`) is not answered with a 400 error response as
the claim demands: the check at agent.c:1247 compares the two
attribute *values*, so the request falls through and is answered with
a Binding success response (return value 0). -/
theorem both_role_attributes_not_rejected :
    (1 : Nat) ≠ 0 ∧ (2 : Nat) ≠ 0 ∧
      (agent_process_stun_binding
          ⟨0, 1, [], false, false, false, AgentMode.unknown⟩
          ⟨AgentMode.unknown, 5, false, false⟩ 99 true false
          ⟨StunClass.request, StunMethod.binding, 7, 0, 1, 2, false, 0, true,
            "a:b", "", "", 0, 0⟩
          ⟨StunEntryType.check, StunEntryState.succeeded, 7, 0, 0, 0, false, true,
            ⟨PairState.succeeded, false, false, 0⟩, false, "", ""⟩).sent =
        [⟨StunClass.respSuccess, 0, 7⟩] ∧
      (agent_process_stun_binding
          ⟨0, 1, [], false, false, false, AgentMode.unknown⟩
          ⟨AgentMode.unknown, 5, false, false⟩ 99 true false
          ⟨StunClass.request, StunMethod.binding, 7, 0, 1, 2, false, 0, true,
            "a:b", "", "", 0, 0⟩
          ⟨StunEntryType.check, StunEntryState.succeeded, 7, 0, 0, 0, false, true,
            ⟨PairState.succeeded, false, false, 0⟩, false, "", ""⟩).ret = 0 := by
  decide

/-- C5 (amended): on a check entry, a Binding request is rejected with
a 400 error response and processed no further if and only if the
values of its `ICE-CONTROLLING` and `ICE-CONTROLLED` attributes (0
when absent) are *equal* — in particular when neither attribute is
present, or both are present with equal values. A request carrying
both attributes with different values is not rejected (no 400 is
produced on it, apart from the separate `USE-CANDIDATE` sanity check,
excluded here by `husec`). -/
theorem binding_request_role_attr_rejection (arm : ArmCtx) (ctx : AgentCtx)
    (fresh : Nat) (ok rel : Bool) (msg : StunMessage) (e : StunEntry)
    (hty : e.ty = StunEntryType.check) (hcl : msg.msgClass = StunClass.request) :
    (msg.iceControlling = msg.iceControlled →
      agent_process_stun_binding arm ctx fresh ok rel msg e =
        ⟨ctx.mode, ctx.tiebreaker, e,
          [⟨StunClass.respError, 400, msg.transactionId⟩], false, false, false, -1⟩) ∧
    (msg.iceControlling ≠ msg.iceControlled → msg.useCandidate = false →
      ∀ s ∈ (agent_process_stun_binding arm ctx fresh ok rel msg e).sent,
        s.errorCode ≠ 400) := by
  constructor
  · intro heq
    simp only [agent_process_stun_binding, hcl, hty]
    simp [heq]
  · intro hne husec s hs
    simp only [agent_process_stun_binding, hcl, hty, husec] at hs
    simp only [hne, ne_eq, not_true_eq_false, reduceCtorEq, if_false, ite_false,
      if_neg, Bool.false_eq_true, false_and] at hs
    split_ifs at hs <;> simp_all

/-- Witness for C5 (amended) at a concrete input: with neither role
attribute present (both values 0) the request is rejected with 400. -/
theorem binding_request_role_attr_rejection_witness :
    (agent_process_stun_binding
        ⟨0, 1, [], false, false, false, AgentMode.unknown⟩
        ⟨AgentMode.unknown, 5, false, false⟩ 99 true false
        ⟨StunClass.request, StunMethod.binding, 7, 0, 0, 0, false, 0, true,
          "a:b", "", "", 0, 0⟩
        ⟨StunEntryType.check, StunEntryState.succeeded, 7, 0, 0, 0, false, true,
          ⟨PairState.succeeded, false, false, 0⟩, false, "", ""⟩) =
      ⟨AgentMode.unknown, 5,
        ⟨StunEntryType.check, StunEntryState.succeeded, 7, 0, 0, 0, false, true,
          ⟨PairState.succeeded, false, false, 0⟩, false, "", ""⟩,
        [⟨StunClass.respError, 400, 7⟩], false, false, false, -1⟩ :=
  (binding_request_role_attr_rejection
    ⟨0, 1, [], false, false, false, AgentMode.unknown⟩
    ⟨AgentMode.unknown, 5, false, false⟩ 99 true false
    ⟨StunClass.request, StunMethod.binding, 7, 0, 0, 0, false, 0, true,
      "a:b", "", "", 0, 0⟩
    ⟨StunEntryType.check, StunEntryState.succeeded, 7, 0, 0, 0, false, true,
      ⟨PairState.succeeded, false, false, 0⟩, false, "", ""⟩
    rfl rfl).1 rfl

/-! ### Tiebreaker stability (C6) -/

/-- C6: `agent_process_stun_binding` writes the tiebreaker (storing a
fresh random value) exactly when the incoming message is a Binding
error response with `ERROR-CODE` 487 arriving on a check entry; every
other class/branch leaves it untouched. (Among the modelled agent
operations — `agent_arm_transmission`, the bookkeeping pass,
`agent_process_turn_allocate` — this is the only one that touches
`agent->ice_tiebreaker` at all; in agent.c the field is written only
at creation, line 146, and in this branch, line 1397.) -/
theorem tiebreaker_only_changes_on_487 (arm : ArmCtx) (ctx : AgentCtx)
    (fresh : Nat) (ok rel : Bool) (msg : StunMessage) (e : StunEntry) :
    (agent_process_stun_binding arm ctx fresh ok rel msg e).tiebreaker =
      if msg.msgClass = StunClass.respError ∧ e.ty = StunEntryType.check ∧
          msg.errorCode = 487 then fresh
      else ctx.tiebreaker := by
  cases hcl : msg.msgClass <;>
    simp only [agent_process_stun_binding, hcl, reduceCtorEq, false_and, if_false,
      ite_false, true_and] <;>
    split_ifs <;> simp_all

/-! ### Failed entries and their schedule (C3) -/

/-- C3 (counterexample): a pending server entry with
`next_transmission = 12345` receives a Binding error response with
code 400. The entry transitions to `failed` (agent.c:1404) but its
`next_transmission` is *not* cleared at that moment — it still holds
12345, contradicting the claim that `next_transmission = 0` from the
moment the state becomes `failed` (it is only zeroed by the next
bookkeeping pass). -/
theorem failed_entry_keeps_next_transmission :
    (agent_process_stun_binding
        ⟨0, 1, [], false, false, false, AgentMode.unknown⟩
        ⟨AgentMode.unknown, 5, false, false⟩ 99 true false
        ⟨StunClass.respError, StunMethod.binding, 7, 400, 0, 0, false, 0, false,
          "", "", "", 0, 0⟩
        ⟨StunEntryType.server, StunEntryState.pending, 7, 12345, 3, 1000, true, false,
          ⟨PairState.frozen, false, false, 0⟩, false, "", ""⟩).entry.state =
        StunEntryState.failed ∧
      (agent_process_stun_binding
        ⟨0, 1, [], false, false, false, AgentMode.unknown⟩
        ⟨AgentMode.unknown, 5, false, false⟩ 99 true false
        ⟨StunClass.respError, StunMethod.binding, 7, 400, 0, 0, false, 0, false,
          "", "", "", 0, 0⟩
        ⟨StunEntryType.server, StunEntryState.pending, 7, 12345, 3, 1000, true, false,
          ⟨PairState.frozen, false, false, 0⟩, false, "", ""⟩).entry.nextTransmission =
        12345 := by
  decide

/-- C3 (amended): (a) the bookkeeping pass transmits nothing for an
entry that is already `failed` and sets its `next_transmission` to 0;
(b) when the bookkeeping pass itself fails a pending entry it zeroes
`next_transmission` at that moment and transmits nothing; (c) an
entry failed by a Binding error response keeps its previous
`next_transmission` until that next bookkeeping pass. -/
theorem failed_entry_never_retransmitted :
    (∀ (arm : ArmCtx) (sendOk : Bool) (freshTx : Nat) (e : StunEntry),
      e.state = StunEntryState.failed →
        agent_bookkeeping_entry_step arm sendOk freshTx e =
          ⟨{ e with nextTransmission := 0 }, []⟩) ∧
    (∀ (arm : ArmCtx) (sendOk : Bool) (freshTx : Nat) (e : StunEntry),
      e.state = StunEntryState.pending → ¬ arm.now < e.nextTransmission →
      ¬ (0 ≤ e.retransmissions ∧ sendOk = true) →
        (agent_bookkeeping_entry_step arm sendOk freshTx e).entry.state =
            StunEntryState.failed ∧
          (agent_bookkeeping_entry_step arm sendOk freshTx e).entry.nextTransmission
              = 0 ∧
          (agent_bookkeeping_entry_step arm sendOk freshTx e).sentTx = []) ∧
    (∀ (arm : ArmCtx) (ctx : AgentCtx) (fresh : Nat) (ok rel : Bool)
        (msg : StunMessage) (e : StunEntry),
      msg.msgClass = StunClass.respError →
      ¬ (e.ty = StunEntryType.check ∧ msg.errorCode = 487) →
        (agent_process_stun_binding arm ctx fresh ok rel msg e).entry.state =
            StunEntryState.failed ∧
          (agent_process_stun_binding arm ctx fresh ok rel msg e).entry.nextTransmission
              = e.nextTransmission) := by
  refine ⟨?_, ?_, ?_⟩
  · intro arm sendOk freshTx e he
    simp [agent_bookkeeping_entry_step, he]
  · intro arm sendOk freshTx e he hnow hfail
    simp [agent_bookkeeping_entry_step, he, hnow, hfail]
  · intro arm ctx fresh ok rel msg e hcl hnot
    simp [agent_process_stun_binding, hcl, hnot]

/-- Witness for C3 (amended) at concrete inputs: a failed check entry
is left untransmitted with its schedule cleared by the bookkeeping
pass. -/
theorem failed_entry_never_retransmitted_witness :
    agent_bookkeeping_entry_step
        ⟨500, 1, [], false, false, false, AgentMode.unknown⟩ true 9
        ⟨StunEntryType.check, StunEntryState.failed, 7, 12345, 3, 1000, true, true,
          ⟨PairState.failed, false, false, 0⟩, false, "", ""⟩ =
      ⟨⟨StunEntryType.check, StunEntryState.failed, 7, 0, 3, 1000, true, true,
          ⟨PairState.failed, false, false, 0⟩, false, "", ""⟩, []⟩ :=
  failed_entry_never_retransmitted.1
    ⟨500, 1, [], false, false, false, AgentMode.unknown⟩ true 9
    ⟨StunEntryType.check, StunEntryState.failed, 7, 12345, 3, 1000, true, true,
      ⟨PairState.failed, false, false, 0⟩, false, "", ""⟩ rfl

/-! ### Send failure during the bookkeeping pass (C4) -/

/-- C4 (counterexample): a pending check entry due for transmission
(`next_transmission = 100 = now`, 7 retransmissions left) whose send
fails (e.g. `sendto` returned EAGAIN, making
`agent_send_stun_binding` return -1) does *not* stay pending with its
schedule intact as claimed: agent.c:848-853 marks the entry and its
pair `failed` and zeroes `next_transmission`. -/
theorem eagain_send_failure_fails_entry :
    (agent_bookkeeping_entry_step
        ⟨100, 1, [], false, false, false, AgentMode.unknown⟩ false 9
        ⟨StunEntryType.check, StunEntryState.pending, 7, 100, 7, 500, true, true,
          ⟨PairState.pending, false, false, 0⟩, false, "", ""⟩).entry.state =
        StunEntryState.failed ∧
      (agent_bookkeeping_entry_step
        ⟨100, 1, [], false, false, false, AgentMode.unknown⟩ false 9
        ⟨StunEntryType.check, StunEntryState.pending, 7, 100, 7, 500, true, true,
          ⟨PairState.pending, false, false, 0⟩, false, "", ""⟩).entry.nextTransmission
          = 0 ∧
      (agent_bookkeeping_entry_step
        ⟨100, 1, [], false, false, false, AgentMode.unknown⟩ false 9
        ⟨StunEntryType.check, StunEntryState.pending, 7, 100, 7, 500, true, true,
          ⟨PairState.pending, false, false, 0⟩, false, "", ""⟩).entry.pair.state =
        PairState.failed := by
  decide

/-- C4 (amended): when sending a due pending entry's request fails
(which is what a `sendto` EAGAIN/EWOULDBLOCK produces: the send
helpers return -1), the only silent part is the logging —
`agent_direct_send` suppresses its warning for EAGAIN/EWOULDBLOCK.
The entry does not retain its schedule: it transitions to `failed`
with `next_transmission = 0`, its pair (when present) is marked
failed, nothing is transmitted, and `retransmissions` is left
undecremented (the retry budget is indeed not charged, because the
whole transaction is abandoned). -/
theorem send_failure_fails_entry (arm : ArmCtx) (freshTx : Nat) (e : StunEntry)
    (he : e.state = StunEntryState.pending)
    (hdue : ¬ arm.now < e.nextTransmission) (hbudget : 0 ≤ e.retransmissions) :
    (agent_bookkeeping_entry_step arm false freshTx e).entry.state =
        StunEntryState.failed ∧
      (agent_bookkeeping_entry_step arm false freshTx e).entry.nextTransmission = 0 ∧
      (agent_bookkeeping_entry_step arm false freshTx e).entry.retransmissions =
        e.retransmissions ∧
      (agent_bookkeeping_entry_step arm false freshTx e).sentTx = [] ∧
      (e.hasPair = true →
        (agent_bookkeeping_entry_step arm false freshTx e).entry.pair.state =
          PairState.failed) ∧
      agent_direct_send_warns (-1) true = false := by
  refine ⟨?_, ?_, ?_, ?_, ?_, by decide⟩ <;>
    simp [agent_bookkeeping_entry_step, he, hdue] <;>
    intro h <;> simp [h]

/-- Witness for C4 (amended) at a concrete input. -/
theorem send_failure_fails_entry_witness :
    (agent_bookkeeping_entry_step
        ⟨200, 1, [], false, false, false, AgentMode.unknown⟩ false 9
        ⟨StunEntryType.server, StunEntryState.pending, 7, 150, 2, 500, true, false,
          ⟨PairState.frozen, false, false, 0⟩, false, "", ""⟩).entry.state =
        StunEntryState.failed ∧
      (agent_bookkeeping_entry_step
        ⟨200, 1, [], false, false, false, AgentMode.unknown⟩ false 9
        ⟨StunEntryType.server, StunEntryState.pending, 7, 150, 2, 500, true, false,
          ⟨PairState.frozen, false, false, 0⟩, false, "", ""⟩).entry.nextTransmission
          = 0 ∧
      (agent_bookkeeping_entry_step
        ⟨200, 1, [], false, false, false, AgentMode.unknown⟩ false 9
        ⟨StunEntryType.server, StunEntryState.pending, 7, 150, 2, 500, true, false,
          ⟨PairState.frozen, false, false, 0⟩, false, "", ""⟩).entry.retransmissions
          = 2 ∧
      (agent_bookkeeping_entry_step
        ⟨200, 1, [], false, false, false, AgentMode.unknown⟩ false 9
        ⟨StunEntryType.server, StunEntryState.pending, 7, 150, 2, 500, true, false,
          ⟨PairState.frozen, false, false, 0⟩, false, "", ""⟩).sentTx = [] := by
  have h := send_failure_fails_entry
    ⟨200, 1, [], false, false, false, AgentMode.unknown⟩ 9
    ⟨StunEntryType.server, StunEntryState.pending, 7, 150, 2, 500, true, false,
      ⟨PairState.frozen, false, false, 0⟩, false, "", ""⟩
    rfl (by norm_num) (by norm_num)
  exact ⟨h.1, h.2.1, h.2.2.1, h.2.2.2.1⟩

/-! ### Coarse state never jumps from connecting to completed (C7) -/

theorem scanPairs_nominatedFound (mode : AgentMode) (nf sf : Bool) (pc : Nat)
    (l : List CandidatePair) :
    (scanPairs mode nf sf pc l).nominatedFound =
      (nf || l.any fun p => p.nominated) := by
  induction l generalizing nf sf pc with
  | nil => simp [scanPairs]
  | cons p t ih =>
    by_cases hn : p.nominated
    · simp [scanPairs, hn, ih]
    · simp only [scanPairs, hn, Bool.false_eq_true, if_false, ite_false]
      split_ifs <;> simp [ih, hn]

theorem scanPairs_sel_of_nom (mode : AgentMode) (nf sf : Bool) (pc : Nat)
    (l : List CandidatePair) (hinv : nf = true → sf = true) :
    (scanPairs mode nf sf pc l).nominatedFound = true →
      (scanPairs mode nf sf pc l).selectedFound = true := by
  induction l generalizing nf sf pc with
  | nil =>
    intro h
    simp only [scanPairs] at h ⊢
    exact hinv h
  | cons p t ih =>
    by_cases hn : p.nominated
    · simp only [scanPairs, hn, if_true, ite_true]
      refine ih _ _ _ ?_
      intro _
      by_cases hnf : nf = true
      · simpa [hnf] using hinv hnf
      · simp [Bool.not_eq_true] at hnf
        simp [hnf]
    · simp only [scanPairs, hn, Bool.false_eq_true, if_false, ite_false]
      split_ifs <;> exact ih _ _ _ (by intro h; first | rfl | exact hinv h)

/-- C7: in every bookkeeping pass that runs while the coarse state is
`connecting` and a nominated pair exists, the state-changed callback
first reports `connected`, and reports `completed` (if at all) only
after it: the callback trace of the pass is either `[connected]` or
`[connected, completed]`, never `[completed]` directly. -/
theorem no_direct_connecting_to_completed (mode : AgentMode) (failTs now : Nat)
    (rf : Bool) (pairs : List CandidatePair)
    (hnom : (pairs.any fun p => p.nominated) = true) :
    (agent_bookkeeping_state_update mode JuiceState.connecting failTs now rf
          pairs).2.1 = [JuiceState.connected] ∨
      (agent_bookkeeping_state_update mode JuiceState.connecting failTs now rf
          pairs).2.1 = [JuiceState.connected, JuiceState.completed] := by
  have hne : pairs ≠ [] := by
    intro h
    subst h
    simp at hnom
  have hn : (scanPairs mode false false 0 pairs).nominatedFound = true := by
    rw [scanPairs_nominatedFound]
    simp [hnom]
  have hs : (scanPairs mode false false 0 pairs).selectedFound = true :=
    scanPairs_sel_of_nom mode false false 0 pairs (by simp) hn
  unfold agent_bookkeeping_state_update
  rw [if_neg hne]
  simp only [hn, hs, if_true, ite_true]
  by_cases hm : mode = AgentMode.controlled ∨
      (scanPairs mode false false 0 pairs).pendingCount = 0
  · right
    simp [hm, agent_change_state]
  · left
    simp [hm, agent_change_state]

/-- Witness for C7 at a concrete input: one nominated pair, controlled
mode, state `connecting`. -/
theorem no_direct_connecting_to_completed_witness :
    (agent_bookkeeping_state_update AgentMode.controlled JuiceState.connecting 0 100
          false [⟨PairState.succeeded, true, false, 42⟩]).2.1 =
        [JuiceState.connected] ∨
      (agent_bookkeeping_state_update AgentMode.controlled JuiceState.connecting 0 100
          false [⟨PairState.succeeded, true, false, 42⟩]).2.1 =
        [JuiceState.connected, JuiceState.completed] :=
  no_direct_connecting_to_completed AgentMode.controlled 0 100 false
    [⟨PairState.succeeded, true, false, 42⟩] (by decide)

/-! ### TURN Allocate 401 handling (C9) -/

theorem arm_transmission_preserves_fields (ctx : ArmCtx) (e : StunEntry)
    (delay : Nat) :
    (agent_arm_transmission ctx e delay).turnRealm = e.turnRealm ∧
      (agent_arm_transmission ctx e delay).turnNonce = e.turnNonce ∧
      (agent_arm_transmission ctx e delay).ty = e.ty ∧
      (agent_arm_transmission ctx e delay).transactionId = e.transactionId := by
  unfold agent_arm_transmission
  dsimp only
  split
  all_goals dsimp only
  all_goals split
  all_goals simp

/-- C9: a relay entry receiving a TURN Allocate error response with
code 401: when the entry's stored realm is still empty and the
response carries a non-empty realm and nonce, the agent adopts them
into the entry's credentials and re-arms the entry for immediate
retransmission (delay 0, i.e. the scheduled slot is the pacing-loop
result for `now + 0`) without marking it failed; when the entry's
realm is already non-empty, or the response lacks realm or nonce, the
entry transitions to `failed` and the allocation is abandoned
(return -1). -/
theorem turn_allocate_401_credentials (arm : ArmCtx) (freshTx : Nat)
    (msg : StunMessage) (e : StunEntry)
    (hm : msg.msgMethod = StunMethod.allocate)
    (hc : msg.msgClass = StunClass.respError)
    (hcode : msg.errorCode = 401)
    (hty : e.ty = StunEntryType.relay) (hturn : e.hasTurn = true) :
    (e.turnRealm = "" → msg.realm ≠ "" → msg.nonce ≠ "" →
      (agent_process_turn_allocate arm freshTx msg e).entry.turnRealm = msg.realm ∧
      (agent_process_turn_allocate arm freshTx msg e).entry.turnNonce = msg.nonce ∧
      (agent_process_turn_allocate arm freshTx msg e).entry.state ≠
        StunEntryState.failed ∧
      (agent_process_turn_allocate arm freshTx msg e).entry.nextTransmission =
        armFindSlot arm.othersNext arm.fuel (arm.now + 0) ∧
      (agent_process_turn_allocate arm freshTx msg e).ret = 0) ∧
    ((e.turnRealm ≠ "" ∨ msg.realm = "" ∨ msg.nonce = "") →
      (agent_process_turn_allocate arm freshTx msg e).entry.state =
          StunEntryState.failed ∧
        (agent_process_turn_allocate arm freshTx msg e).ret = -1) := by
  constructor
  · intro hrealm hmsgRealm hmsgNonce
    simp only [agent_process_turn_allocate, hm, hc, hcode, hty, hturn]
    simp only [hrealm, hmsgRealm, hmsgNonce, ne_eq, not_true_eq_false,
      not_false_eq_true, false_and, and_false, if_false, ite_false, if_neg,
      or_self, or_false, false_or, if_true, ite_true, reduceCtorEq]
    have hp := arm_transmission_preserves_fields arm
      (stun_process_credentials msg.realm msg.nonce e) 0
    have hst := arm_transmission_state arm
      (stun_process_credentials msg.realm msg.nonce e) 0
    have hnt := arm_transmission_nextTransmission arm
      (stun_process_credentials msg.realm msg.nonce e) 0
    refine ⟨?_, ?_, ?_, ?_, ?_⟩
    · simp_all [stun_process_credentials]
    · simp_all [stun_process_credentials]
    · rw [hst]
      split <;> simp
    · simp_all
    · simp_all
  · intro habandon
    simp only [agent_process_turn_allocate, hm, hc, hcode, hty, hturn]
    rcases habandon with h | h | h <;> simp_all

/-- Witness for C9 at a concrete input: empty stored realm, response
carrying realm and nonce; the credentials are adopted and the entry is
re-armed for time `now + 0`. -/
theorem turn_allocate_401_credentials_witness :
    (agent_process_turn_allocate ⟨300, 51, [], false, false, false, AgentMode.unknown⟩
        5
        ⟨StunClass.respError, StunMethod.allocate, 7, 401, 0, 0, false, 0, true,
          "", "example.org", "nonce1", 0, 0⟩
        ⟨StunEntryType.relay, StunEntryState.pending, 7, 0, 3, 1000, true, false,
          ⟨PairState.frozen, false, false, 0⟩, true, "", ""⟩).entry.turnRealm =
        "example.org" ∧
      (agent_process_turn_allocate ⟨300, 51, [], false, false, false, AgentMode.unknown⟩
        5
        ⟨StunClass.respError, StunMethod.allocate, 7, 401, 0, 0, false, 0, true,
          "", "example.org", "nonce1", 0, 0⟩
        ⟨StunEntryType.relay, StunEntryState.pending, 7, 0, 3, 1000, true, false,
          ⟨PairState.frozen, false, false, 0⟩, true, "", ""⟩).entry.turnNonce =
        "nonce1" ∧
      (agent_process_turn_allocate ⟨300, 51, [], false, false, false, AgentMode.unknown⟩
        5
        ⟨StunClass.respError, StunMethod.allocate, 7, 401, 0, 0, false, 0, true,
          "", "example.org", "nonce1", 0, 0⟩
        ⟨StunEntryType.relay, StunEntryState.pending, 7, 0, 3, 1000, true, false,
          ⟨PairState.frozen, false, false, 0⟩, true, "", ""⟩).entry.state ≠
        StunEntryState.failed ∧
      (agent_process_turn_allocate ⟨300, 51, [], false, false, false, AgentMode.unknown⟩
        5
        ⟨StunClass.respError, StunMethod.allocate, 7, 401, 0, 0, false, 0, true,
          "", "example.org", "nonce1", 0, 0⟩
        ⟨StunEntryType.relay, StunEntryState.pending, 7, 0, 3, 1000, true, false,
          ⟨PairState.frozen, false, false, 0⟩, true, "", ""⟩).entry.nextTransmission =
        armFindSlot [] 51 (300 + 0) := by
  have h := (turn_allocate_401_credentials
    ⟨300, 51, [], false, false, false, AgentMode.unknown⟩ 5
    ⟨StunClass.respError, StunMethod.allocate, 7, 401, 0, 0, false, 0, true,
      "", "example.org", "nonce1", 0, 0⟩
    ⟨StunEntryType.relay, StunEntryState.pending, 7, 0, 3, 1000, true, false,
      ⟨PairState.frozen, false, false, 0⟩, true, "", ""⟩
    rfl rfl rfl rfl rfl).1 rfl (by decide) (by decide)
  exact ⟨h.1, h.2.1, h.2.2.1, h.2.2.2.1⟩

/-! ### Unverified error responses and the 487 role switch (C10) -/

/-- C10: `agent_verify_stun_binding` accepts every Binding indication
or error response without consulting the integrity oracle, the
USERNAME or any password (the result is 0 for *every* value of
`integrityOk` and of the credential strings); consequently a Binding
error response with code 487 on a check entry triggers the role
switch, regenerates the tiebreaker and reschedules the entry for
immediate retransmission although its integrity was never verified. -/
theorem unverified_487_triggers_role_switch
    (localUfrag remoteUfrag localPwd remotePwd : String) (integrityOk : Bool)
    (arm : ArmCtx) (ctx : AgentCtx) (fresh : Nat) (ok rel : Bool)
    (msg : StunMessage) (e : StunEntry)
    (hmeth : msg.msgMethod = StunMethod.binding)
    (hclass : msg.msgClass = StunClass.respError)
    (hcode : msg.errorCode = 487) (hty : e.ty = StunEntryType.check)
    (hrole : (ctx.mode = AgentMode.controlling ∧ msg.iceControlling ≠ 0) ∨
      (ctx.mode = AgentMode.controlled ∧ msg.iceControlled ≠ 0)) :
    agent_verify_stun_binding localUfrag remoteUfrag localPwd remotePwd
        integrityOk msg = 0 ∧
      (agent_process_stun_binding arm ctx fresh ok rel msg e).tiebreaker = fresh ∧
      (agent_process_stun_binding arm ctx fresh ok rel msg e).mode =
        (if msg.iceControlling ≠ 0 then AgentMode.controlled
          else AgentMode.controlling) ∧
      (agent_process_stun_binding arm ctx fresh ok rel msg e).pairsUpdated = true ∧
      (agent_process_stun_binding arm ctx fresh ok rel msg e).entry.state =
        StunEntryState.pending ∧
      (agent_process_stun_binding arm ctx fresh ok rel msg e).entry.nextTransmission
          = armFindSlot arm.othersNext arm.fuel (arm.now + 0) := by
  refine ⟨?_, ?_⟩
  · simp [agent_verify_stun_binding, hmeth, hclass]
  · have hst := arm_transmission_state arm { e with state := StunEntryState.pending } 0
    have hnt := arm_transmission_nextTransmission arm
      { e with state := StunEntryState.pending } 0
    simp only [agent_process_stun_binding, hclass, hty, hcode, and_self, if_true,
      ite_true, true_and]
    rw [if_pos hrole]
    simp_all

/-- Witness for C10 at a concrete input: a 487 error response (with
`integrityOk = false`, i.e. the integrity check would fail if it were
ever consulted) carrying `ICE-CONTROLLING`, received by a controlling
agent on a check entry. -/
theorem unverified_487_triggers_role_switch_witness :
    agent_verify_stun_binding "lu" "ru" "lp" "rp" false
        ⟨StunClass.respError, StunMethod.binding, 7, 487, 11, 0, false, 0, false,
          "", "", "", 0, 0⟩ = 0 ∧
      (agent_process_stun_binding ⟨50, 51, [], false, false, false,
          AgentMode.controlling⟩
        ⟨AgentMode.controlling, 5, false, false⟩ 99 true false
        ⟨StunClass.respError, StunMethod.binding, 7, 487, 11, 0, false, 0, false,
          "", "", "", 0, 0⟩
        ⟨StunEntryType.check, StunEntryState.pending, 7, 400, 3, 1000, true, true,
          ⟨PairState.pending, false, false, 0⟩, false, "", ""⟩).tiebreaker = 99 ∧
      (agent_process_stun_binding ⟨50, 51, [], false, false, false,
          AgentMode.controlling⟩
        ⟨AgentMode.controlling, 5, false, false⟩ 99 true false
        ⟨StunClass.respError, StunMethod.binding, 7, 487, 11, 0, false, 0, false,
          "", "", "", 0, 0⟩
        ⟨StunEntryType.check, StunEntryState.pending, 7, 400, 3, 1000, true, true,
          ⟨PairState.pending, false, false, 0⟩, false, "", ""⟩).mode =
        (if (11 : Nat) ≠ 0 then AgentMode.controlled else AgentMode.controlling) ∧
      (agent_process_stun_binding ⟨50, 51, [], false, false, false,
          AgentMode.controlling⟩
        ⟨AgentMode.controlling, 5, false, false⟩ 99 true false
        ⟨StunClass.respError, StunMethod.binding, 7, 487, 11, 0, false, 0, false,
          "", "", "", 0, 0⟩
        ⟨StunEntryType.check, StunEntryState.pending, 7, 400, 3, 1000, true, true,
          ⟨PairState.pending, false, false, 0⟩, false, "", ""⟩).entry.state =
        StunEntryState.pending := by
  have h := unverified_487_triggers_role_switch "lu" "ru" "lp" "rp" false
    ⟨50, 51, [], false, false, false, AgentMode.controlling⟩
    ⟨AgentMode.controlling, 5, false, false⟩ 99 true false
    ⟨StunClass.respError, StunMethod.binding, 7, 487, 11, 0, false, 0, false,
      "", "", "", 0, 0⟩
    ⟨StunEntryType.check, StunEntryState.pending, 7, 400, 3, 1000, true, true,
      ⟨PairState.pending, false, false, 0⟩, false, "", ""⟩
    rfl rfl rfl rfl (Or.inl ⟨rfl, by decide⟩)
  exact ⟨h.1, h.2.1, h.2.2.1, h.2.2.2.2.1⟩

end Juice
